import Mathlib

/-!
Verification of `core/src/avm2/globals/flash/display/loaderinfo.rs`
(the `flash.display.LoaderInfo` builtin): a shallow embedding of the
loader-stream data model, the property-getter dispatch layer, and the
`bytes` byte-stream reconstruction algorithm, together with theorems
settling the specification's claims about them.

Bytes are modelled as `Nat` values (each `< 256` where produced),
machine integers as `Nat`/`Int` with explicit `% 2^32` where the code
casts to `u32`, and `f64`/`f32` values as rationals.
-/

namespace LoaderInfo

/-- Byte order of a ByteArray's default decode/encode convention
(`crate::avm2::bytearray::Endian`). -/
inductive Endian where
  | Big : Endian
  | Little : Endian
deriving DecidableEq, Repr

/-- SWF compression variants (`swf::Compression`). -/
inductive Compression where
  | Uncompressed : Compression
  | Zlib : Compression
  | Lzma : Compression
deriving DecidableEq, Repr

/-- A stage rectangle in twips (1/20-pixel units), `swf::Rectangle`
with `i32` twip coordinates modelled as `Int`. -/
structure Rectangle where
  x_min : Int
  y_min : Int
  x_max : Int
  y_max : Int
deriving DecidableEq, Repr

/-- The SWF header (`swf::Header`): version byte, compression, stage
rectangle, frame rate (an `f32`, modelled as a rational), frame count,
and the declared uncompressed length (`u32`). -/
structure Header where
  version : Nat
  compression : Compression
  stage_size : Rectangle
  frame_rate : ℚ
  num_frames : Nat
  uncompressed_length : Nat
deriving DecidableEq, Repr

/-- A loaded movie (`SwfMovie` as seen from this file): parsed header,
decoded tag-data bytes, optional url and loader url, parameters, and
the compressed length of the original source bytes. -/
structure SwfMovie where
  header : Header
  data : List Nat
  url : Option String
  loader_url : Option String
  parameters : List (String × String)
  compressed_length : Nat
deriving DecidableEq, Repr

/-- The `LoaderStream` two-variant state holder: either the stage's loader info (no payload) or a
loaded movie together with a reference to the loaded content's root
display object (modelled as a `Nat` handle). -/
inductive LoaderStream where
  | Stage : LoaderStream
  | Swf : SwfMovie → Nat → LoaderStream
deriving DecidableEq, Repr

/-- A script object receiver as the getters see it: it either carries a
loader stream (`as_loader_stream` returns `some`) or it does not. -/
structure Obj where
  loader_stream : Option LoaderStream
deriving DecidableEq, Repr

/-- Implements `Object::as_loader_stream`. -/
def Obj.as_loader_stream (o : Obj) : Option LoaderStream :=
  o.loader_stream

/-- Pixel conversion of a twip quantity.
Modelled from the spec: `Twips::to_pixels` (crate `swf`, not under
`src/`) converts the fixed sub-pixel unit (1/20 pixel) to pixels by
dividing by 20; the `f64` result is modelled as a rational. -/
def twipsToPixels (t : Int) : ℚ :=
  (t : ℚ) / 20

/-- The four bytes of `n`'s value as a `u32`, little-endian. -/
def u32LEBytes (n : Nat) : List Nat :=
  [n % 256, n / 256 % 256, n / 65536 % 256, n / 16777216 % 256]

/-- The two bytes of `n`'s value as a `u16`, little-endian. -/
def u16LEBytes (n : Nat) : List Nat :=
  [n % 256, n / 256 % 256]

/-- Little-endian decoding of the first four bytes of a byte sequence
(missing positions read as 0). -/
def decodeU32LE (bs : List Nat) : Nat :=
  bs.getD 0 0 + 256 * bs.getD 1 0 + 65536 * bs.getD 2 0 + 16777216 * bs.getD 3 0

/-- Number of bits needed for an unsigned 32-bit value (`count_ubits`,
i.e. 32 minus the number of leading zeros): one plus the index of the
highest set bit, and 0 for 0. -/
def countUbits (n : Nat) : Nat :=
  (List.range 32).foldl (fun acc i => if n / 2 ^ i % 2 = 1 then i + 1 else acc) 0

/-- Number of bits needed for a signed (two's complement) value
(`count_sbits`). -/
def countSbits (v : Int) : Nat :=
  if v = 0 then 0
  else if 0 ≤ v then countUbits v.toNat + 1
  else countUbits (-v - 1).toNat + 1

/-- The `width` low bits of `n`, most significant first. -/
def natToBits (n : Nat) (width : Nat) : List Bool :=
  (List.range width).map (fun i => n.testBit (width - 1 - i))

/-- A signed value in `width`-bit two's complement, most significant
bit first. -/
def intToBits (v : Int) (width : Nat) : List Bool :=
  natToBits (v.emod (2 ^ width)).toNat width

/-- The value of a big-endian bit string. -/
def bitsToByte (bs : List Bool) : Nat :=
  bs.foldl (fun acc b => acc * 2 + (if b then 1 else 0)) 0

/-- Pack a bit string into bytes, most significant bit first, the last
byte padded with zero bits. -/
def packBits (bits : List Bool) : List Nat :=
  (List.range ((bits.length + 7) / 8)).map (fun i =>
    bitsToByte ((bits.drop (8 * i)).take 8
      ++ List.replicate (8 - ((bits.drop (8 * i)).take 8).length) false))

/-- SWF `RECT` encoding: a 5-bit field giving the per-coordinate bit
width, then the four twip coordinates (x_min, x_max, y_min, y_max) as
signed values of that width, bit-packed and padded to a byte boundary. -/
def encodeRect (r : Rectangle) : List Nat :=
  let nbits := max (max (countSbits r.x_min) (countSbits r.x_max))
    (max (countSbits r.y_min) (countSbits r.y_max))
  packBits (natToBits nbits 5 ++ intToBits r.x_min nbits ++ intToBits r.x_max nbits
    ++ intToBits r.y_min nbits ++ intToBits r.y_max nbits)

/-- SWF `FIXED8` (8.8 fixed point) encoding of the frame rate: the
value times 256, truncated toward zero to an `i16`, little-endian. -/
def fixed8Bytes (q : ℚ) : List Nat :=
  let v : Int := (q * 256).num / ((q * 256).den : Int)
  u16LEBytes (v.emod 65536).toNat

/-- Modelled from the spec: `swf::write_swf` (crate `swf`, not under
`src/`) serializing an uncompressed movie. The container format is a
fixed 3-byte signature plus a 1-byte version at offsets 0–3, a 4-byte
little-endian total length at offsets 4–7, the stage rectangle, frame
rate and frame count, then the tag stream; the generic writer always
appends an implicit 2-byte end-of-tag-stream marker, even for an empty
tag stream, and writes as total length the length of its own output.
Tags are taken pre-encoded as byte sequences. -/
def write_swf (h : Header) (tags : List (List Nat)) : List Nat :=
  let body := encodeRect h.stage_size ++ fixed8Bytes h.frame_rate
    ++ u16LEBytes h.num_frames ++ tags.flatten ++ [0, 0]
  [70, 87, 83] ++ [h.version % 256] ++ u32LEBytes (8 + body.length) ++ body

/-- Overwriting write into a byte sequence: bytes land at offsets
`offset`, `offset+1`, …; the sequence is zero-extended if the write
starts past its end, grows if the write runs past its end, and is
never truncated. -/
def writeAt (bytes : List Nat) (offset : Nat) (buf : List Nat) : List Nat :=
  bytes.take offset ++ List.replicate (offset - bytes.length) 0 ++ buf
    ++ bytes.drop (offset + buf.length)

/-- An AVM2 `ByteArray` object's state (`ByteArrayObject` /
`ByteArrayStorage`): its bytes, read/write cursor, and default byte
order. -/
structure ByteArrayObject where
  bytes : List Nat
  position : Nat
  endian : Endian
deriving DecidableEq, Repr

/-- Modelled from the spec: `ByteArrayObject::construct`
(`bytearray.rs`, not under `src/`) produces a fresh, empty byte array
at position 0 with the consumer-facing canonical byte order
(big-endian). -/
def ByteArrayObject.construct : ByteArrayObject :=
  { bytes := [], position := 0, endian := Endian.Big }

/-- Modelled from the spec: `ByteArrayStorage::write_bytes`
(`bytearray.rs`, not under `src/`) writes the buffer starting at the
current cursor position (overwriting, extending but never truncating)
and advances the cursor past it. -/
def ByteArrayObject.write_bytes (ba : ByteArrayObject) (buf : List Nat) : ByteArrayObject :=
  { ba with bytes := writeAt ba.bytes ba.position buf,
            position := ba.position + buf.length }

/-- Modelled from the spec: `ByteArrayStorage::set_position`
(`bytearray.rs`, not under `src/`). -/
def ByteArrayObject.set_position (ba : ByteArrayObject) (p : Nat) : ByteArrayObject :=
  { ba with position := p }

/-- Modelled from the spec: `ByteArrayStorage::set_endian`
(`bytearray.rs`, not under `src/`). -/
def ByteArrayObject.set_endian (ba : ByteArrayObject) (e : Endian) : ByteArrayObject :=
  { ba with endian := e }

/-- Modelled from the spec: `ByteArrayStorage::write_unsigned_int`
(`bytearray.rs`, not under `src/`) writes the four bytes of a `u32` at
the cursor in the array's current byte order. -/
def ByteArrayObject.write_unsigned_int (ba : ByteArrayObject) (n : Nat) : ByteArrayObject :=
  match ba.endian with
  | Endian.Little => ba.write_bytes (u32LEBytes n)
  | Endian.Big => ba.write_bytes (u32LEBytes n).reverse

/-- AVM2 values as this file produces them: `undefined`, `null`,
booleans, numbers (modelled as rationals), strings, and the object
values returned by getters (application-domain objects, display
objects, freshly populated script objects, byte arrays), flattened
into one inductive. -/
inductive Value where
  | undefined : Value
  | null : Value
  | boolV : Bool → Value
  | num : ℚ → Value
  | str : String → Value
  | domain : Nat → Value
  | displayObject : Nat → Value
  | scriptObj : List (String × String) → Value
  | byteArrayV : ByteArrayObject → Value
deriving DecidableEq, Repr

/-- The ambient activation context the getters consult: the top-level
SWF's compressed length, the global application domain, the stage's
root clip, and the per-movie library lookups (AVM2 domain, loader
version of the library's AVM type). -/
structure Env where
  swf_compressed_length : Nat
  global_domain : Nat
  stage_root : Nat
  avm2_domain : SwfMovie → Nat
  avm_loader_version : SwfMovie → Nat

/-- A native getter/method signature: activation context, receiver,
arguments, to value or error (errors are their message strings). -/
def Getter : Type :=
  Env → Option Obj → List Value → Except String Value

/-- Implements `flash.display.LoaderInfo`'s instance
constructor. -/
def instance_init : Getter :=
  fun _activation _this _args =>
    Except.error "LoaderInfo cannot be constructed"

/-- Implements `flash.display.LoaderInfo`'s class constructor (`class_init`). -/
def class_init : Getter :=
  fun _activation _this _args => Except.ok Value.undefined

/-- Getter for `actionScriptVersion`. -/
def action_script_version : Getter :=
  fun activation this _args =>
    match this with
    | some this =>
      match this.as_loader_stream with
      | some LoaderStream.Stage =>
        Except.error "Error: The stage's loader info does not have an AS version"
      | some (LoaderStream.Swf movie _) =>
        Except.ok (Value.num (activation.avm_loader_version movie))
      | none => Except.ok Value.undefined
    | none => Except.ok Value.undefined

/-- Getter for `applicationDomain`. -/
def application_domain : Getter :=
  fun activation this _args =>
    match this with
    | some this =>
      match this.as_loader_stream with
      | some LoaderStream.Stage =>
        Except.ok (Value.domain activation.global_domain)
      | some (LoaderStream.Swf movie _) =>
        Except.ok (Value.domain (activation.avm2_domain movie))
      | none => Except.ok Value.undefined
    | none => Except.ok Value.undefined

/-- Getter for `bytesTotal`; in `create_class` it is also bound as the
getter for `bytesLoaded` (streaming loads are not supported). -/
def bytes_total : Getter :=
  fun activation this _args =>
    match this with
    | some this =>
      match this.as_loader_stream with
      | some LoaderStream.Stage =>
        Except.ok (Value.num activation.swf_compressed_length)
      | some (LoaderStream.Swf movie _) =>
        Except.ok (Value.num movie.compressed_length)
      | none => Except.ok Value.undefined
    | none => Except.ok Value.undefined

/-- Getter for `content`. -/
def content : Getter :=
  fun activation this _args =>
    match this with
    | some this =>
      match this.as_loader_stream with
      | some LoaderStream.Stage =>
        Except.ok (Value.displayObject activation.stage_root)
      | some (LoaderStream.Swf _ root) =>
        Except.ok (Value.displayObject root)
      | none => Except.ok Value.undefined
    | none => Except.ok Value.undefined

/-- Getter for `contentType`. -/
def content_type : Getter :=
  fun _activation this _args =>
    match this with
    | some this =>
      match this.as_loader_stream with
      | some LoaderStream.Stage => Except.ok Value.null
      | some (LoaderStream.Swf _ _) =>
        Except.ok (Value.str "application/x-shockwave-flash")
      | none => Except.ok Value.undefined
    | none => Except.ok Value.undefined

/-- Getter for `frameRate`. -/
def frame_rate : Getter :=
  fun _activation this _args =>
    match this with
    | some this =>
      match this.as_loader_stream with
      | some LoaderStream.Stage =>
        Except.error "Error: The stage's loader info does not have a frame rate"
      | some (LoaderStream.Swf root _) =>
        Except.ok (Value.num root.header.frame_rate)
      | none => Except.ok Value.undefined
    | none => Except.ok Value.undefined

/-- Getter for `height`. -/
def height : Getter :=
  fun _activation this _args =>
    match this with
    | some this =>
      match this.as_loader_stream with
      | some LoaderStream.Stage =>
        Except.error "Error: The stage's loader info does not have a height"
      | some (LoaderStream.Swf root _) =>
        Except.ok (Value.num (twipsToPixels
          (root.header.stage_size.y_max - root.header.stage_size.y_min)))
      | none => Except.ok Value.undefined
    | none => Except.ok Value.undefined

/-- Getter stub for `isURLInaccessible`. -/
def is_url_inaccessible : Getter :=
  fun _activation _this _args => Except.ok (Value.boolV false)

/-- Getter for `swfVersion`. -/
def swf_version : Getter :=
  fun _activation this _args =>
    match this with
    | some this =>
      match this.as_loader_stream with
      | some LoaderStream.Stage =>
        Except.error "Error: The stage's loader info does not have a SWF version"
      | some (LoaderStream.Swf root _) =>
        Except.ok (Value.num root.header.version)
      | none => Except.ok Value.undefined
    | none => Except.ok Value.undefined

/-- Getter for `url`. -/
def url : Getter :=
  fun _activation this _args =>
    match this with
    | some this =>
      match this.as_loader_stream with
      | some LoaderStream.Stage =>
        Except.error "Error: The stage's loader info does not have a URL"
      | some (LoaderStream.Swf root _) =>
        Except.ok (Value.str (root.url.getD ""))
      | none => Except.ok Value.undefined
    | none => Except.ok Value.undefined

/-- Getter for `width`. -/
def width : Getter :=
  fun _activation this _args =>
    match this with
    | some this =>
      match this.as_loader_stream with
      | some LoaderStream.Stage =>
        Except.error "Error: The stage's loader info does not have a width"
      | some (LoaderStream.Swf root _) =>
        Except.ok (Value.num (twipsToPixels
          (root.header.stage_size.x_max - root.header.stage_size.x_min)))
      | none => Except.ok Value.undefined
    | none => Except.ok Value.undefined

/-- The `bytes` reconstruction for a loaded movie, as the `bytes`
getter performs it: construct a fresh ByteArray, serialize a copy of
the header with compression forced off and declared length set to the
tag data's length through the generic SWF writer with an empty tag
stream, scroll back over the writer's implicit 2-byte end marker,
write the tag data, then overwrite the little-endian length field at
offset 4 and reset position and byte order. -/
def reconstructBytes (root : SwfMovie) : ByteArrayObject :=
  let ba := ByteArrayObject.construct
  let header := { root.header with
    compression := Compression.Uncompressed,
    uncompressed_length := root.data.length }
  let ba := ba.write_bytes (write_swf header [])
  let correct_header_length := ba.bytes.length - 2
  let ba := ba.set_position correct_header_length
  let ba := ba.write_bytes root.data
  let ba := ba.set_position 4
  let ba := ba.set_endian Endian.Little
  let ba := ba.write_unsigned_int ((root.data.length + correct_header_length) % 4294967296)
  let ba := ba.set_position 0
  let ba := ba.set_endian Endian.Big
  ba

/-- Getter for `bytes`. -/
def bytes : Getter :=
  fun _activation this _args =>
    match this with
    | some this =>
      match this.as_loader_stream with
      | some LoaderStream.Stage =>
        Except.error "Error: The stage's loader info does not have a bytestream"
      | some (LoaderStream.Swf root _) =>
        Except.ok (Value.byteArrayV (reconstructBytes root))
      | none => Except.ok Value.undefined
    | none => Except.ok Value.undefined

/-- Getter for `loaderUrl`. -/
def loader_url : Getter :=
  fun _activation this _args =>
    match this with
    | some this =>
      match this.as_loader_stream with
      | some LoaderStream.Stage =>
        Except.error "Error: The stage's loader info does not have a loader URL"
      | some (LoaderStream.Swf root _) =>
        Except.ok (Value.str ((root.loader_url.orElse (fun _ => root.url)).getD ""))
      | none => Except.ok Value.undefined
    | none => Except.ok Value.undefined

/-- Getter for `parameters`. -/
def parameters : Getter :=
  fun _activation this _args =>
    match this with
    | some this =>
      match this.as_loader_stream with
      | some LoaderStream.Stage =>
        Except.error "Error: The stage's loader info does not have parameters"
      | some (LoaderStream.Swf root _) =>
        Except.ok (Value.scriptObj root.parameters)
      | none => Except.ok Value.undefined
    | none => Except.ok Value.undefined

/-- The instance traits `create_class` installs: each public property
name bound to its getter, in source order. -/
def instanceTraits : List (String × Getter) :=
  [("actionScriptVersion", action_script_version),
   ("applicationDomain", application_domain),
   ("bytesLoaded", bytes_total),
   ("bytesTotal", bytes_total),
   ("content", content),
   ("contentType", content_type),
   ("frameRate", frame_rate),
   ("height", height),
   ("isURLInaccessible", is_url_inaccessible),
   ("swfVersion", swf_version),
   ("url", url),
   ("width", width),
   ("bytes", bytes),
   ("loaderUrl", loader_url),
   ("parameters", parameters)]

/-- The `LoaderInfo` class as `create_class` builds it. -/
structure ClassDef where
  name : String
  superName : String
  instanceInit : Getter
  classInit : Getter
  sealed : Bool
  traits : List (String × Getter)

/-- Implements `create_class`: the `flash.display.LoaderInfo` class definition. -/
def create_class : ClassDef :=
  { name := "LoaderInfo",
    superName := "EventDispatcher",
    instanceInit := instance_init,
    classInit := class_init,
    sealed := true,
    traits := instanceTraits }

/-- Reading a named property on a receiver: look the getter up in the
class's instance traits and invoke it with no arguments. -/
def readProperty (name : String) (env : Env) (this : Option Obj) :
    Option (Except String Value) :=
  (List.lookup name create_class.traits).map (fun g => g env this [])

/-- A receiver holding the stage's loader stream. -/
def stageObj : Obj :=
  { loader_stream := some LoaderStream.Stage }

/-- A receiver holding a loaded movie's loader stream. -/
def movieObj (mov : SwfMovie) (root : Nat) : Obj :=
  { loader_stream := some (LoaderStream.Swf mov root) }

/-- A receiver carrying no loader stream. -/
def bareObj : Obj :=
  { loader_stream := none }

/-- The synthesized header the reconstruction serializes: the movie's
header with compression forced off and declared length set to the tag
data's length. -/
def synthesizedHeader (mov : SwfMovie) : Header :=
  { mov.header with
    compression := Compression.Uncompressed,
    uncompressed_length := mov.data.length }

/-- The synthesized header length `H`: the generic writer's
empty-tag-stream output length minus the 2-byte implicit end marker. -/
def headerLen (mov : SwfMovie) : Nat :=
  (write_swf (synthesizedHeader mov) []).length - 2

/-- A concrete activation context for witnesses. -/
def envSample : Env :=
  { swf_compressed_length := 1234,
    global_domain := 1,
    stage_root := 2,
    avm2_domain := fun _ => 3,
    avm_loader_version := fun _ => 3 }

/-- A concrete movie with empty tag data. -/
def movEmptyData : SwfMovie :=
  { header :=
    { version := 6,
      compression := Compression.Lzma,
      stage_size := { x_min := 0, y_min := 0, x_max := 11000, y_max := 8000 },
      frame_rate := 24,
      num_frames := 1,
      uncompressed_length := 0 },
    data := [],
    url := some "file:///a.swf",
    loader_url := none,
    parameters := [],
    compressed_length := 1000 }

/-- A concrete movie with three bytes of tag data. -/
def movSmall : SwfMovie :=
  { movEmptyData with data := [64, 0, 0] }

/-- The spec scenario movie: the `movEmptyData` header with 5000 bytes
of tag data. -/
def movScenario : SwfMovie :=
  { movEmptyData with data := List.replicate 5000 0 }

/-- The byte-stream reconstruction algorithm exactly as the spec words
it, for comparison with the source translation `reconstructBytes`:
serialize the synthesized header through the generic writer with an
empty tag stream, compute `header_len` as that output's length minus
2, write the tag data starting at offset `header_len`, and overwrite
the 4-byte little-endian total-length field at offset 4 with
`header_len + tag_data.length` (as a `u32`); the result is returned at
position 0 in big-endian state. -/
def bytesReconstructionSpec (mov : SwfMovie) : ByteArrayObject :=
  let header := synthesizedHeader mov
  let serialized := write_swf header []
  let header_len := serialized.length - 2
  let withTags := writeAt serialized header_len mov.data
  let patched := writeAt withTags 4
    (u32LEBytes ((header_len + mov.data.length) % 4294967296))
  { bytes := patched, position := 0, endian := Endian.Big }

lemma writeAt_nil (l : List Nat) : writeAt [] 0 l = l := by
  simp [writeAt]

lemma packBits_length (bits : List Bool) :
    (packBits bits).length = (bits.length + 7) / 8 := by
  simp [packBits]

lemma encodeRect_length_pos (r : Rectangle) : 1 ≤ (encodeRect r).length := by
  simp only [encodeRect, packBits_length, List.length_append, natToBits, List.length_map,
    List.length_range]
  omega

lemma write_swf_nil_length (h : Header) :
    (write_swf h []).length = 14 + (encodeRect h.stage_size).length := by
  simp [write_swf, u32LEBytes, u16LEBytes, fixed8Bytes]
  omega

lemma write_swf_nil_length_ge (h : Header) : 15 ≤ (write_swf h []).length := by
  have h1 := encodeRect_length_pos h.stage_size
  have h2 := write_swf_nil_length h
  omega

lemma headerLen_ge (mov : SwfMovie) : 13 ≤ headerLen mov := by
  have := write_swf_nil_length_ge (synthesizedHeader mov)
  simp only [headerLen]
  omega

lemma reconstructBytes_unfold (mov : SwfMovie) :
    reconstructBytes mov =
      { bytes := writeAt (writeAt (write_swf (synthesizedHeader mov) [])
            ((write_swf (synthesizedHeader mov) []).length - 2) mov.data) 4
            (u32LEBytes ((mov.data.length
              + ((write_swf (synthesizedHeader mov) []).length - 2)) % 4294967296)),
        position := 0,
        endian := Endian.Big } := by
  simp [reconstructBytes, ByteArrayObject.construct, ByteArrayObject.write_bytes,
    ByteArrayObject.set_position, ByteArrayObject.set_endian,
    ByteArrayObject.write_unsigned_int, writeAt_nil, synthesizedHeader]

lemma reconstructBytes_bytes_decomp (mov : SwfMovie) (h2 : 2 ≤ mov.data.length) :
    (reconstructBytes mov).bytes
      = (write_swf (synthesizedHeader mov) []).take 4
        ++ u32LEBytes ((mov.data.length + headerLen mov) % 4294967296)
        ++ ((write_swf (synthesizedHeader mov) []).take (headerLen mov)).drop 8
        ++ mov.data := by
  have hout := write_swf_nil_length_ge (synthesizedHeader mov)
  set out := write_swf (synthesizedHeader mov) [] with hout_def
  have hH : headerLen mov = out.length - 2 := rfl
  rw [reconstructBytes_unfold]
  simp only [← hout_def, ← hH]
  have e1 : writeAt out (headerLen mov) mov.data = out.take (headerLen mov) ++ mov.data := by
    simp only [writeAt]
    have r1 : headerLen mov - out.length = 0 := by omega
    have r2 : out.length ≤ headerLen mov + mov.data.length := by omega
    rw [r1, List.drop_eq_nil_of_le r2]
    simp
  rw [e1]
  have hlenTake : (out.take (headerLen mov)).length = headerLen mov := by
    simp [List.length_take]
    omega
  have hHge : 13 ≤ headerLen mov := headerLen_ge mov
  simp only [writeAt]
  have r3 : 4 - (out.take (headerLen mov) ++ mov.data).length = 0 := by
    simp [List.length_append, hlenTake]
    omega
  rw [r3]
  simp only [List.replicate, List.nil_append]
  have r4 : (out.take (headerLen mov) ++ mov.data).take 4 = out.take 4 := by
    rw [List.take_append_eq_append_take]
    have : 4 - (out.take (headerLen mov)).length = 0 := by omega
    rw [this, List.take_take, List.take_zero, List.append_nil]
    congr 1
  have r5 : (out.take (headerLen mov) ++ mov.data).drop (4 + (u32LEBytes
      ((mov.data.length + headerLen mov) % 4294967296)).length)
      = (out.take (headerLen mov)).drop 8 ++ mov.data := by
    rw [List.drop_append_eq_append_drop]
    have h8 : 4 + (u32LEBytes ((mov.data.length + headerLen mov) % 4294967296)).length = 8 := by
      simp [u32LEBytes]
    rw [h8]
    have : 8 - (out.take (headerLen mov)).length = 0 := by omega
    rw [this, List.drop_zero]
  rw [r4, r5]
  simp

lemma decodeU32LE_u32LEBytes (v : Nat) (rest : List Nat) :
    decodeU32LE (u32LEBytes v ++ rest) = v % 4294967296 := by
  simp [decodeU32LE, u32LEBytes, List.getD]
  omega

/-- C1, counterexample: for a LoadedMovie whose tag data is empty
(length `L = 0`), the `bytes` getter's output keeps the generic
writer's 2-byte end marker, so its length is `H + 2` and not
`H + L`. -/
theorem c1_counterexample_empty_tag_data :
    bytes envSample (some (movieObj movEmptyData 0)) []
      = Except.ok (Value.byteArrayV (reconstructBytes movEmptyData))
    ∧ (reconstructBytes movEmptyData).bytes.length
        ≠ headerLen movEmptyData + movEmptyData.data.length :=
  ⟨rfl, by decide⟩

/-- C1 (amended): for every LoadedMovie stream whose tag-data length
`L` is at least 2, the `bytes` getter returns a byte array of exactly
`H + L` bytes (`H` being the synthesized header length), whose bytes
at offsets 4..8 decode little-endian to `(H + L) mod 2^32` — hence to
`H + L` whenever `H + L < 2^32` — and whose bytes from offset `H`
onward equal the movie's tag data exactly. -/
theorem c1_bytes_output_contract (env : Env) (mov : SwfMovie) (rootRef : Nat)
    (args : List Value) (hL : 2 ≤ mov.data.length) :
    ∃ ba, bytes env (some (movieObj mov rootRef)) args = Except.ok (Value.byteArrayV ba)
      ∧ ba.bytes.length = headerLen mov + mov.data.length
      ∧ decodeU32LE (ba.bytes.drop 4) = (headerLen mov + mov.data.length) % 4294967296
      ∧ (headerLen mov + mov.data.length < 4294967296 →
          decodeU32LE (ba.bytes.drop 4) = headerLen mov + mov.data.length)
      ∧ ba.bytes.drop (headerLen mov) = mov.data := by
  have hHge := headerLen_ge mov
  have hbytes := reconstructBytes_bytes_decomp mov hL
  set out := write_swf (synthesizedHeader mov) [] with hout_def
  have h15 : 15 ≤ out.length := write_swf_nil_length_ge (synthesizedHeader mov)
  have hH : headerLen mov = out.length - 2 := rfl
  set v := (mov.data.length + headerLen mov) % 4294967296 with hv_def
  have h4 : (out.take 4).length = 4 := by
    simp [List.length_take]
    omega
  have hHtake : (out.take (headerLen mov)).length = headerLen mov := by
    simp [List.length_take]
    omega
  have hlen : (reconstructBytes mov).bytes.length = headerLen mov + mov.data.length := by
    rw [hbytes]
    simp only [List.length_append, h4, hHtake, List.length_drop, u32LEBytes,
      List.length_cons, List.length_nil]
    omega
  have hdec : decodeU32LE ((reconstructBytes mov).bytes.drop 4)
      = (headerLen mov + mov.data.length) % 4294967296 := by
    rw [hbytes]
    simp only [List.append_assoc]
    rw [List.drop_append_eq_append_drop, h4, List.drop_eq_nil_of_le (le_of_eq h4),
      Nat.sub_self, List.drop_zero, List.nil_append, decodeU32LE_u32LEBytes]
    omega
  have hpre : (out.take 4 ++ u32LEBytes v ++ (out.take (headerLen mov)).drop 8).length
      = headerLen mov := by
    simp only [List.length_append, h4, List.length_drop, hHtake, u32LEBytes,
      List.length_cons, List.length_nil]
    omega
  have hdrop : (reconstructBytes mov).bytes.drop (headerLen mov) = mov.data := by
    have hdl := List.drop_left
      (out.take 4 ++ u32LEBytes v ++ (out.take (headerLen mov)).drop 8) mov.data
    rw [hpre] at hdl
    rw [hbytes]
    exact hdl
  exact ⟨reconstructBytes mov, rfl, hlen, hdec, fun hlt => by rw [hdec]; omega, hdrop⟩

/-- C1, witness: the amended output contract at a concrete movie with
three bytes of tag data. -/
theorem c1_bytes_output_contract_witness :
    ∃ ba, bytes envSample (some (movieObj movSmall 0)) []
        = Except.ok (Value.byteArrayV ba)
      ∧ ba.bytes.length = headerLen movSmall + movSmall.data.length
      ∧ decodeU32LE (ba.bytes.drop 4)
          = (headerLen movSmall + movSmall.data.length) % 4294967296
      ∧ (headerLen movSmall + movSmall.data.length < 4294967296 →
          decodeU32LE (ba.bytes.drop 4) = headerLen movSmall + movSmall.data.length)
      ∧ ba.bytes.drop (headerLen movSmall) = movSmall.data :=
  c1_bytes_output_contract envSample movSmall 0 [] (by decide)

/-- C2: for every LoadedMovie stream, the `bytes` getter returns
exactly the result of the spec's reconstruction algorithm
(`bytesReconstructionSpec`): serialize the header copy with
compression forced off and declared length set to the tag data's
length through the generic SWF writer with an empty tag stream, take
`header_len` as that output's length minus 2, write the tag data
verbatim starting at `header_len`, and overwrite the 4-byte
little-endian total-length field at offset 4 with
`header_len + tag_data.length`. -/
theorem c2_bytes_follows_spec_algorithm (env : Env) (mov : SwfMovie) (rootRef : Nat)
    (args : List Value) :
    bytes env (some (movieObj mov rootRef)) args
      = Except.ok (Value.byteArrayV (bytesReconstructionSpec mov)) := by
  show Except.ok (Value.byteArrayV (reconstructBytes mov)) = _
  rw [reconstructBytes_unfold]
  simp [bytesReconstructionSpec, Nat.add_comm]

/-- C3: with a StageRoot stream, each of frameRate, height, width,
swfVersion, url, loaderUrl, parameters, bytes and actionScriptVersion
fails with its stage-unsupported error, while each of
applicationDomain, bytesTotal, bytesLoaded, content, contentType and
isURLInaccessible succeeds with a value. -/
theorem c3_stage_root_dispatch : ∀ env : Env,
    readProperty "frameRate" env (some stageObj)
      = some (Except.error "Error: The stage's loader info does not have a frame rate")
  ∧ readProperty "height" env (some stageObj)
      = some (Except.error "Error: The stage's loader info does not have a height")
  ∧ readProperty "width" env (some stageObj)
      = some (Except.error "Error: The stage's loader info does not have a width")
  ∧ readProperty "swfVersion" env (some stageObj)
      = some (Except.error "Error: The stage's loader info does not have a SWF version")
  ∧ readProperty "url" env (some stageObj)
      = some (Except.error "Error: The stage's loader info does not have a URL")
  ∧ readProperty "loaderUrl" env (some stageObj)
      = some (Except.error "Error: The stage's loader info does not have a loader URL")
  ∧ readProperty "parameters" env (some stageObj)
      = some (Except.error "Error: The stage's loader info does not have parameters")
  ∧ readProperty "bytes" env (some stageObj)
      = some (Except.error "Error: The stage's loader info does not have a bytestream")
  ∧ readProperty "actionScriptVersion" env (some stageObj)
      = some (Except.error "Error: The stage's loader info does not have an AS version")
  ∧ readProperty "applicationDomain" env (some stageObj)
      = some (Except.ok (Value.domain env.global_domain))
  ∧ readProperty "bytesTotal" env (some stageObj)
      = some (Except.ok (Value.num env.swf_compressed_length))
  ∧ readProperty "bytesLoaded" env (some stageObj)
      = some (Except.ok (Value.num env.swf_compressed_length))
  ∧ readProperty "content" env (some stageObj)
      = some (Except.ok (Value.displayObject env.stage_root))
  ∧ readProperty "contentType" env (some stageObj)
      = some (Except.ok Value.null)
  ∧ readProperty "isURLInaccessible" env (some stageObj)
      = some (Except.ok (Value.boolV false)) :=
  fun _ => ⟨rfl, rfl, rfl, rfl, rfl, rfl, rfl, rfl, rfl, rfl, rfl, rfl, rfl, rfl, rfl⟩

/-- C4: on every successful `bytes` return of a byte array, the
returned array's cursor is at position 0 and its default byte order is
big-endian. -/
theorem c4_bytes_cursor_and_endian (env : Env) (this : Option Obj) (args : List Value)
    (ba : ByteArrayObject)
    (h : bytes env this args = Except.ok (Value.byteArrayV ba)) :
    ba.position = 0 ∧ ba.endian = Endian.Big := by
  cases this with
  | none => simp [bytes] at h
  | some o =>
    obtain ⟨ls⟩ := o
    cases ls with
    | none => simp [bytes, Obj.as_loader_stream] at h
    | some s =>
      cases s with
      | Stage => simp [bytes, Obj.as_loader_stream] at h
      | Swf mv rt =>
        simp only [bytes, Obj.as_loader_stream] at h
        have hba : reconstructBytes mv = ba := by simpa using h
        rw [← hba]
        exact ⟨rfl, rfl⟩

/-- C4, witness: the cursor/byte-order reset at a concrete movie. -/
theorem c4_bytes_cursor_and_endian_witness :
    (reconstructBytes movSmall).position = 0
      ∧ (reconstructBytes movSmall).endian = Endian.Big :=
  c4_bytes_cursor_and_endian envSample (some (movieObj movSmall 0)) []
    (reconstructBytes movSmall) rfl

/-- C5: `bytesLoaded` and `bytesTotal` are bound to the same getter,
so reading either returns the same value: the top-level container's
compressed length for StageRoot and the movie's `compressed_length`
for LoadedMovie. -/
theorem c5_bytes_loaded_equals_bytes_total :
    List.lookup "bytesLoaded" create_class.traits = some bytes_total
  ∧ List.lookup "bytesTotal" create_class.traits = some bytes_total
  ∧ (∀ env this, readProperty "bytesLoaded" env this = readProperty "bytesTotal" env this)
  ∧ (∀ env args, bytes_total env (some stageObj) args
      = Except.ok (Value.num env.swf_compressed_length))
  ∧ (∀ env mov rootRef args, bytes_total env (some (movieObj mov rootRef)) args
      = Except.ok (Value.num mov.compressed_length)) :=
  ⟨rfl, rfl, fun _ _ => rfl, fun _ _ => rfl, fun _ _ _ _ => rfl⟩

/-- C6: for every LoadedMovie stream, `width` returns
`(x_max − x_min) / 20` and `height` returns `(y_max − y_min) / 20`
(twips to pixels); in particular a stage rectangle
(0,0)-(11000,8000) in twips gives width 550 and height 400. -/
theorem c6_width_height_pixels :
    (∀ env mov rootRef args,
      width env (some (movieObj mov rootRef)) args
        = Except.ok (Value.num (twipsToPixels
            (mov.header.stage_size.x_max - mov.header.stage_size.x_min)))
      ∧ height env (some (movieObj mov rootRef)) args
        = Except.ok (Value.num (twipsToPixels
            (mov.header.stage_size.y_max - mov.header.stage_size.y_min))))
    ∧ width envSample (some (movieObj movScenario 0)) [] = Except.ok (Value.num 550)
    ∧ height envSample (some (movieObj movScenario 0)) [] = Except.ok (Value.num 400) := by
  refine ⟨fun env mov rootRef args => ⟨rfl, rfl⟩, ?_, ?_⟩
  · show Except.ok (Value.num (twipsToPixels (11000 - 0))) = _
    norm_num [twipsToPixels]
  · show Except.ok (Value.num (twipsToPixels (8000 - 0))) = _
    norm_num [twipsToPixels]

/-- C7: for every LoadedMovie stream, `url` returns the movie's url or
the empty string if absent, and `loaderUrl` returns the movie's
loader_url, falling back to the url, falling back to the empty
string. -/
theorem c7_url_and_loader_url_fallback :
    ∀ (env : Env) (mov : SwfMovie) (rootRef : Nat) (args : List Value),
    url env (some (movieObj mov rootRef)) args
      = Except.ok (Value.str (match mov.url with | some u => u | none => ""))
  ∧ loader_url env (some (movieObj mov rootRef)) args
      = Except.ok (Value.str (match mov.loader_url, mov.url with
          | some lu, _ => lu
          | none, some u => u
          | none, none => "")) := by
  intro env mov rootRef args
  obtain ⟨hd, dat, u, lu, ps, cl⟩ := mov
  constructor
  · cases u <;> rfl
  · cases lu <;> cases u <;> rfl

/-- C8: `contentType` returns null for a StageRoot stream and the
fixed string "application/x-shockwave-flash" for a LoadedMovie
stream. -/
theorem c8_content_type :
    ∀ (env : Env) (args : List Value) (mov : SwfMovie) (rootRef : Nat),
    content_type env (some stageObj) args = Except.ok Value.null
  ∧ content_type env (some (movieObj mov rootRef)) args
      = Except.ok (Value.str "application/x-shockwave-flash") :=
  fun _ _ _ _ => ⟨rfl, rfl⟩

/-- C9: every invocation of the LoaderInfo instance constructor by
script code fails with the construction-forbidden error, for any
receiver and any arguments; in particular it never returns a value. -/
theorem c9_construction_forbidden :
    ∀ (env : Env) (this : Option Obj) (args : List Value),
    create_class.instanceInit env this args
      = Except.error "LoaderInfo cannot be constructed"
  ∧ ∀ v, create_class.instanceInit env this args ≠ Except.ok v :=
  fun _ _ _ => ⟨rfl, fun _ h => Except.noConfusion h⟩

/-- C10: for every stream-dispatching getter, reading the property
with no receiver, or on a receiver carrying no loader stream, succeeds
and returns undefined. -/
theorem c10_missing_stream_undefined : ∀ env : Env,
    (readProperty "actionScriptVersion" env none = some (Except.ok Value.undefined)
      ∧ readProperty "actionScriptVersion" env (some bareObj) = some (Except.ok Value.undefined))
  ∧ (readProperty "applicationDomain" env none = some (Except.ok Value.undefined)
      ∧ readProperty "applicationDomain" env (some bareObj) = some (Except.ok Value.undefined))
  ∧ (readProperty "bytesTotal" env none = some (Except.ok Value.undefined)
      ∧ readProperty "bytesTotal" env (some bareObj) = some (Except.ok Value.undefined))
  ∧ (readProperty "bytesLoaded" env none = some (Except.ok Value.undefined)
      ∧ readProperty "bytesLoaded" env (some bareObj) = some (Except.ok Value.undefined))
  ∧ (readProperty "content" env none = some (Except.ok Value.undefined)
      ∧ readProperty "content" env (some bareObj) = some (Except.ok Value.undefined))
  ∧ (readProperty "contentType" env none = some (Except.ok Value.undefined)
      ∧ readProperty "contentType" env (some bareObj) = some (Except.ok Value.undefined))
  ∧ (readProperty "frameRate" env none = some (Except.ok Value.undefined)
      ∧ readProperty "frameRate" env (some bareObj) = some (Except.ok Value.undefined))
  ∧ (readProperty "height" env none = some (Except.ok Value.undefined)
      ∧ readProperty "height" env (some bareObj) = some (Except.ok Value.undefined))
  ∧ (readProperty "width" env none = some (Except.ok Value.undefined)
      ∧ readProperty "width" env (some bareObj) = some (Except.ok Value.undefined))
  ∧ (readProperty "swfVersion" env none = some (Except.ok Value.undefined)
      ∧ readProperty "swfVersion" env (some bareObj) = some (Except.ok Value.undefined))
  ∧ (readProperty "url" env none = some (Except.ok Value.undefined)
      ∧ readProperty "url" env (some bareObj) = some (Except.ok Value.undefined))
  ∧ (readProperty "loaderUrl" env none = some (Except.ok Value.undefined)
      ∧ readProperty "loaderUrl" env (some bareObj) = some (Except.ok Value.undefined))
  ∧ (readProperty "parameters" env none = some (Except.ok Value.undefined)
      ∧ readProperty "parameters" env (some bareObj) = some (Except.ok Value.undefined))
  ∧ (readProperty "bytes" env none = some (Except.ok Value.undefined)
      ∧ readProperty "bytes" env (some bareObj) = some (Except.ok Value.undefined)) :=
  fun _ => ⟨⟨rfl, rfl⟩, ⟨rfl, rfl⟩, ⟨rfl, rfl⟩, ⟨rfl, rfl⟩, ⟨rfl, rfl⟩, ⟨rfl, rfl⟩,
    ⟨rfl, rfl⟩, ⟨rfl, rfl⟩, ⟨rfl, rfl⟩, ⟨rfl, rfl⟩, ⟨rfl, rfl⟩, ⟨rfl, rfl⟩,
    ⟨rfl, rfl⟩, ⟨rfl, rfl⟩⟩

end LoaderInfo
